import Mathlib

/-!
Verification development for the ridecast multi-source forecast engine.

The Python source is shallowly embedded:
* rational numbers (`ℚ`) stand for Python floats, so every arithmetic
  statement is about exact arithmetic;
* timezone-aware local datetimes are integers counting microseconds from
  the local midnight of an arbitrary reference day (day arithmetic,
  `.hour`, `.replace`, and `timedelta` arithmetic all become integer
  arithmetic at microsecond resolution, exactly as CPython performs it);
* fallible operations return `Option`.
-/

/-! ## Definitions -/

inductive RiskLevel where
  | minimal
  | low
  | moderate
  | high
deriving DecidableEq, Repr

/-- Severity order used by the spec: high > moderate > low > minimal. -/
def severity : RiskLevel → ℕ
  | .minimal => 0
  | .low => 1
  | .moderate => 2
  | .high => 3

/-- The fields of `models.ForecastResult` that the risk evaluator reads. -/
structure ForecastResult where
  chance_of_rain : ℚ
  wind_kph : ℚ
  temp_c : ℚ

/-- models.py: `temp_to_fahrenheit(temp_c) = (temp_c * 9/5) + 32`. -/
def temp_to_fahrenheit (temp_c : ℚ) : ℚ :=
  temp_c * 9 / 5 + 32

/-- fetchers/noaa.py line 114: `temp_c = (temp_f - 32) * 5 / 9`. -/
def noaa_temp_to_celsius (temp_f : ℚ) : ℚ :=
  (temp_f - 32) * 5 / 9

/-- The per-leg risk dictionary built by `categorize_weather_risk`. -/
structure RiskAssessment where
  rain : RiskLevel
  wind : RiskLevel
  temperature : RiskLevel
  overall : RiskLevel

/-- evaluator.py lines 36-47: the rain threshold chain (80 / 50 / 20). -/
def rain_risk (chance_of_rain : ℚ) : RiskLevel :=
  if chance_of_rain ≥ 80 then .high
  else if chance_of_rain ≥ 50 then .moderate
  else if chance_of_rain ≥ 20 then .low
  else .minimal

/-- evaluator.py lines 49-61: wind chain on `wind_kph * 0.621371` mph. -/
def wind_risk (wind_kph : ℚ) : RiskLevel :=
  let wind_mph := wind_kph * (0.621371 : ℚ)
  if wind_mph ≥ 35 then .high
  else if wind_mph ≥ 25 then .moderate
  else if wind_mph ≥ 15 then .low
  else .minimal

/-- evaluator.py lines 63-75: temperature chain on °F (≤35 / ≥95 / ≤50). -/
def temp_risk (temp_c : ℚ) : RiskLevel :=
  let temp_f := temp_to_fahrenheit temp_c
  if temp_f ≤ 35 then .high
  else if temp_f ≥ 95 then .high
  else if temp_f ≤ 50 then .moderate
  else .minimal

/-- evaluator.py lines 77-87: overall risk from the list of factor levels. -/
def overallOf (risk_levels : List RiskLevel) : RiskLevel :=
  if RiskLevel.high ∈ risk_levels then .high
  else if RiskLevel.moderate ∈ risk_levels then .moderate
  else if RiskLevel.low ∈ risk_levels then .low
  else .minimal

/-- evaluator.py `categorize_weather_risk`: the three factor levels plus
the overall level computed from them. -/
def categorize_weather_risk (forecast : ForecastResult) : RiskAssessment :=
  let rain := rain_risk forecast.chance_of_rain
  let wind := wind_risk forecast.wind_kph
  let temperature := temp_risk forecast.temp_c
  ⟨rain, wind, temperature, overallOf [rain, wind, temperature]⟩

/-- Modelled from the spec: the round-trip decision of §4.6 is not
implemented as code under src (`evaluate_ride_full_day2` in
src/evaluator.py delegates the `should_ride` value to an external
text-generation service), so the deterministic rule set is taken from the
spec's words, evaluated in priority order: (a) either leg's overall risk
high → false; (b) evening rain probability ≥ 30 → false (the spec's
strong bias toward false, taken as false); (c) either leg's rain
probability over 50 → false; (d) otherwise true. Per-leg overall risk is
the source-embedded `categorize_weather_risk`. -/
def should_ride (morning evening : ForecastResult) : Bool :=
  if (categorize_weather_risk morning).overall = RiskLevel.high ∨
      (categorize_weather_risk evening).overall = RiskLevel.high then false
  else if 30 ≤ evening.chance_of_rain then false
  else if 50 < morning.chance_of_rain ∨ 50 < evening.chance_of_rain then false
  else true

/-- fetchers/openweather.py line 89:
`chance_of_rain = selected_forecast.get("pop", 0.0) * 100`; `none`
models a payload with no `pop` key. -/
def openweather_chance_of_rain (pop : Option ℚ) : ℚ :=
  pop.getD 0 * 100

/-- fetchers/noaa.py line 118: `chance_of_rain =
selected_period.get("probabilityOfPrecipitation", {}).get("value", 0.0)
or 0.0`; `none` models a missing key or a JSON null (the trailing
`or 0.0` maps those, and a literal 0, to 0). -/
def noaa_chance_of_rain (value : Option ℚ) : ℚ :=
  value.getD 0

/-- weather_config.WeatherConfig: the fields the embedded functions read. -/
structure WeatherConfig where
  enable_fallback : Bool
  fallback_window_hours : ℤ
  enable_retries : Bool
  max_retries : ℕ
  retry_delay_base : ℚ
  retry_delay_max : ℚ

/-- What one invocation of `func()` does, as observed by
`retry_with_backoff`: either a response with an HTTP status code, or one
of the exception classes the source catches. -/
inductive CallOutcome where
  | resp (status : ℕ)
  | timeout
  | connError
  | otherExc
deriving DecidableEq, Repr

/-- How one loop iteration of api_utils.py lines 37-55 ends: the response
is returned (status below 400, or at least 600, where `raise_for_status`
does not raise); a 4xx other than 429 returns None at once; every other
case falls through to the backoff logic. -/
inductive AttemptEnd where
  | success (status : ℕ)
  | terminal
  | retryable
deriving DecidableEq, Repr

def classifyAttempt : CallOutcome → AttemptEnd
  | .resp status =>
    if 400 ≤ status ∧ status < 600 then
      if 400 ≤ status ∧ status < 500 ∧ status ≠ 429 then .terminal
      else .retryable
    else .success status
  | .timeout => .retryable
  | .connError => .retryable
  | .otherExc => .retryable

/-- Observable behaviour of `retry_with_backoff`: the returned response
status (None on failure), how many attempts ran, and the sleeps performed
between attempts, in order. -/
structure RetryTrace where
  result : Option ℕ
  attempts : ℕ
  sleeps : List ℚ
deriving DecidableEq, Repr

/-- The retry loop of api_utils.py lines 34-64, over the list of this
run's per-attempt outcomes (one per iteration of
`range(max_retries + 1)`): sleep `delay` only when attempts remain, then
double the delay capping it at the maximum. -/
def retryLoop (maxDelay : ℚ) : ℚ → List CallOutcome → RetryTrace
  | _, [] => ⟨none, 0, []⟩
  | delay, o :: rest =>
    match classifyAttempt o with
    | .success status => ⟨some status, 1, []⟩
    | .terminal => ⟨none, 1, []⟩
    | .retryable =>
      if rest.isEmpty then ⟨none, 1, []⟩
      else
        let r := retryLoop maxDelay (min (delay * 2) maxDelay) rest
        ⟨r.result, r.attempts + 1, delay :: r.sleeps⟩

/-- api_utils.retry_with_backoff: `outcomes n` is what `func()` does on
attempt `n`. With retries disabled (lines 27-32) the single response is
returned without `raise_for_status`, and any exception yields None. -/
def retry_with_backoff (config : WeatherConfig) (outcomes : ℕ → CallOutcome) :
    RetryTrace :=
  if config.enable_retries then
    retryLoop config.retry_delay_max config.retry_delay_base
      ((List.range (config.max_retries + 1)).map outcomes)
  else
    match outcomes 0 with
    | .resp status => ⟨some status, 1, []⟩
    | _ => ⟨none, 1, []⟩

def usPerSecond : ℤ := 1000000

def usPerMinute : ℤ := 60000000

def usPerHour : ℤ := 3600000000

def usPerDay : ℤ := 86400000000

/-- The `.hour` field of a local datetime. -/
def hourOf (t : ℤ) : ℤ :=
  t.fdiv usPerHour % 24

/-- Local midnight of the day containing `t` (the part that
`datetime.replace(hour=..., minute=0, second=0, microsecond=0)` keeps). -/
def dayStartOf (t : ℤ) : ℤ :=
  t.fdiv usPerDay * usPerDay

/-- CPython `timedelta / 2`: halve the microsecond count, rounding half
to even. -/
def halfOfDelta (d : ℤ) : ℤ :=
  let q := d.fdiv 2
  if d % 2 = 0 then q else if q % 2 = 0 then q else q + 1

/-- api_utils.py line 110: `current_time.replace(hour=start_hour, ...)`,
line 115: shifted one day forward when the window already elapsed. -/
def targetStartRaw (now start_hour : ℤ) : ℤ :=
  dayStartOf now + start_hour * usPerHour

/-- api_utils.py line 111: `current_time.replace(hour=end_hour,
minute=59, second=59, microsecond=999999)`. -/
def targetEndRaw (now end_hour : ℤ) : ℤ :=
  dayStartOf now + end_hour * usPerHour + 59 * usPerMinute +
    59 * usPerSecond + 999999

/-- Lines 110-116: target start, shifted to tomorrow when the target
range is already entirely in the past. -/
def targetStartOf (now start_hour end_hour : ℤ) : ℤ :=
  if targetEndRaw now end_hour < now then targetStartRaw now start_hour + usPerDay
  else targetStartRaw now start_hour

/-- Lines 110-116: target end, shifted to tomorrow when already past. -/
def targetEndOf (now end_hour : ℤ) : ℤ :=
  if targetEndRaw now end_hour < now then targetEndRaw now end_hour + usPerDay
  else targetEndRaw now end_hour

/-- Line 118: `fallback_start = target_start - timedelta(hours=...)`. -/
def fallbackBandLow (now start_hour end_hour : ℤ) (config : WeatherConfig) : ℤ :=
  targetStartOf now start_hour end_hour - config.fallback_window_hours * usPerHour

/-- Line 119: `fallback_end = target_end + timedelta(hours=...)`. -/
def fallbackBandHigh (now end_hour : ℤ) (config : WeatherConfig) : ℤ :=
  targetEndOf now end_hour + config.fallback_window_hours * usPerHour

/-- Line 131: `target_center = target_start + (target_end - target_start) / 2`. -/
def fallbackCenter (now start_hour end_hour : ℤ) : ℤ :=
  targetStartOf now start_hour end_hour +
    halfOfDelta (targetEndOf now end_hour - targetStartOf now start_hour end_hour)

/-- Lines 137-143: signed offset in whole hours between a chosen entry
and the target range, truncated via floor division of the positive
difference (Python float `//` then `int`). -/
def offsetOf (target_start target_end t : ℤ) : ℤ :=
  if t < target_start then -((target_start - t).fdiv usPerHour)
  else if target_end < t then (t - target_end).fdiv usPerHour
  else 0

/-- The first-pass acceptance test of lines 93-98: not strictly before
`now`, and the entry's hour inside `[start_hour, end_hour]`. -/
def matchesTarget {α : Type} (timeOf : α → ℤ) (now start_hour end_hour : ℤ)
    (e : α) : Prop :=
  ¬ timeOf e < now ∧ start_hour ≤ hourOf (timeOf e) ∧
    hourOf (timeOf e) ≤ end_hour

instance {α : Type} (timeOf : α → ℤ) (now start_hour end_hour : ℤ) (e : α) :
    Decidable (matchesTarget timeOf now start_hour end_hour e) := by
  unfold matchesTarget
  infer_instance

/-- First pass (lines 90-99): scan in order, skip entries before `now`,
return the first entry whose hour is inside the target range. -/
def exactScan {α : Type} (timeOf : α → ℤ) (now start_hour end_hour : ℤ) :
    List α → Option α
  | [] => none
  | e :: rest =>
    if timeOf e < now then exactScan timeOf now start_hour end_hour rest
    else if start_hour ≤ hourOf (timeOf e) ∧ hourOf (timeOf e) ≤ end_hour then
      some e
    else exactScan timeOf now start_hour end_hour rest

/-- The second-pass candidate test of lines 124-129: not before `now`
and inside the fallback band. -/
def inBand {α : Type} (timeOf : α → ℤ) (now band_low band_high : ℤ) (e : α) :
    Bool :=
  !decide (timeOf e < now) &&
    (decide (band_low ≤ timeOf e) && decide (timeOf e ≤ band_high))

/-- Second pass (lines 121-143): linear scan keeping the entry strictly
closest to the target center, together with its distance and its offset
(recomputed at line 137-143 each time a new best is kept). -/
def fallbackScan {α : Type} (timeOf : α → ℤ)
    (now band_low band_high target_start target_end center : ℤ) :
    List α → Option (α × ℤ × ℤ) → Option (α × ℤ × ℤ)
  | [], best => best
  | e :: rest, best =>
    if timeOf e < now then
      fallbackScan timeOf now band_low band_high target_start target_end center
        rest best
    else if band_low ≤ timeOf e ∧ timeOf e ≤ band_high then
      match best with
      | none =>
        fallbackScan timeOf now band_low band_high target_start target_end
          center rest
          (some (e, |timeOf e - center|, offsetOf target_start target_end (timeOf e)))
      | some (b, m, o) =>
        if |timeOf e - center| < m then
          fallbackScan timeOf now band_low band_high target_start target_end
            center rest
            (some (e, |timeOf e - center|, offsetOf target_start target_end (timeOf e)))
        else
          fallbackScan timeOf now band_low band_high target_start target_end
            center rest (some (b, m, o))
    else
      fallbackScan timeOf now band_low band_high target_start target_end center
        rest best

/-- api_utils.find_forecast_with_fallback. The outer `Option` models
control flow: `none` is the uncaught ValueError that
`datetime.replace` raises on an hour outside 0-23 (only reachable when
the fallback pass runs); `some` carries the Python return triple
(forecast-or-None, used_fallback, offset-or-None). Forecast entries are
assumed truthy, so line 145's `if best_forecast:` is a None test. -/
def find_forecast_with_fallback {α : Type} (forecasts : List α)
    (target_hour_range : ℤ × ℤ) (current_time : ℤ) (config : WeatherConfig)
    (timeOf : α → ℤ) : Option (Option α × Bool × Option ℤ) :=
  let start_hour := target_hour_range.1
  let end_hour := target_hour_range.2
  match exactScan timeOf current_time start_hour end_hour forecasts with
  | some f => some (some f, false, none)
  | none =>
    if config.enable_fallback = false then some (none, false, none)
    else if 0 ≤ start_hour ∧ start_hour ≤ 23 ∧ 0 ≤ end_hour ∧ end_hour ≤ 23 then
      match fallbackScan timeOf current_time
          (fallbackBandLow current_time start_hour end_hour config)
          (fallbackBandHigh current_time end_hour config)
          (targetStartOf current_time start_hour end_hour)
          (targetEndOf current_time end_hour)
          (fallbackCenter current_time start_hour end_hour)
          forecasts none with
      | some (b, _, o) => some (some b, true, some o)
      | none => some (none, false, none)
    else none

/-- Specification-side recursion: the first element of a list attaining
the minimum of `d`, computed from the right with ties preferring the
earlier element. -/
def firstMinBy {α : Type} (d : α → ℤ) : List α → Option α
  | [] => none
  | c :: rest =>
    match firstMinBy d rest with
    | none => some c
    | some b => if d b < d c then some b else some c

/-! ## Theorems -/

lemma rain_risk_high_iff (c : ℚ) : rain_risk c = .high ↔ 80 ≤ c := by
  unfold rain_risk
  split_ifs with h1 h2 h3 <;> simp_all <;>
    first
      | linarith
      | (constructor <;> linarith)
      | (intro h; linarith)
      | (rintro ⟨h4, h5⟩; linarith)

lemma rain_risk_moderate_iff (c : ℚ) :
    rain_risk c = .moderate ↔ 50 ≤ c ∧ c < 80 := by
  unfold rain_risk
  split_ifs with h1 h2 h3 <;> simp_all <;>
    first
      | linarith
      | (constructor <;> linarith)
      | (intro h; linarith)
      | (rintro ⟨h4, h5⟩; linarith)

lemma rain_risk_low_iff (c : ℚ) :
    rain_risk c = .low ↔ 20 ≤ c ∧ c < 50 := by
  unfold rain_risk
  split_ifs with h1 h2 h3 <;> simp_all <;>
    first
      | linarith
      | (constructor <;> linarith)
      | (intro h; linarith)
      | (rintro ⟨h4, h5⟩; linarith)

lemma rain_risk_minimal_iff (c : ℚ) : rain_risk c = .minimal ↔ c < 20 := by
  unfold rain_risk
  split_ifs with h1 h2 h3 <;> simp_all <;>
    first
      | linarith
      | (constructor <;> linarith)
      | (intro h; linarith)
      | (rintro ⟨h4, h5⟩; linarith)

lemma severity_overallOf (a b c : RiskLevel) :
    severity (overallOf [a, b, c]) =
      max (severity a) (max (severity b) (severity c)) := by
  cases a <;> cases b <;> cases c <;> rfl

lemma wind_risk_high_iff (w : ℚ) :
    wind_risk w = .high ↔ 35 ≤ w * (0.621371 : ℚ) := by
  simp only [wind_risk]
  split_ifs with h1 h2 h3 <;> simp_all <;>
    first
      | linarith
      | (constructor <;> linarith)
      | (intro h; linarith)

lemma wind_risk_moderate_iff (w : ℚ) :
    wind_risk w = .moderate ↔
      25 ≤ w * (0.621371 : ℚ) ∧ w * (0.621371 : ℚ) < 35 := by
  simp only [wind_risk]
  split_ifs with h1 h2 h3 <;> simp_all <;>
    first
      | linarith
      | (constructor <;> linarith)
      | (intro h; linarith)
      | (rintro ⟨h4, h5⟩; linarith)

lemma wind_risk_low_iff (w : ℚ) :
    wind_risk w = .low ↔
      15 ≤ w * (0.621371 : ℚ) ∧ w * (0.621371 : ℚ) < 25 := by
  simp only [wind_risk]
  split_ifs with h1 h2 h3 <;> simp_all <;>
    first
      | linarith
      | (constructor <;> linarith)
      | (intro h; linarith)
      | (rintro ⟨h4, h5⟩; linarith)

lemma wind_risk_minimal_iff (w : ℚ) :
    wind_risk w = .minimal ↔ w * (0.621371 : ℚ) < 15 := by
  simp only [wind_risk]
  split_ifs with h1 h2 h3 <;> simp_all <;>
    first
      | linarith
      | (constructor <;> linarith)
      | (intro h; linarith)

lemma temp_risk_high_iff (t : ℚ) :
    temp_risk t = .high ↔
      temp_to_fahrenheit t ≤ 35 ∨ 95 ≤ temp_to_fahrenheit t := by
  simp only [temp_risk]
  split_ifs with h1 h2 h3 <;> simp_all <;>
    first
      | linarith
      | (constructor <;> linarith)
      | (intro h; linarith)
      | (rintro (h4 | h4) <;> linarith)

lemma temp_risk_moderate_iff (t : ℚ) :
    temp_risk t = .moderate ↔
      35 < temp_to_fahrenheit t ∧ temp_to_fahrenheit t ≤ 50 := by
  simp only [temp_risk]
  split_ifs with h1 h2 h3 <;> simp_all <;>
    first
      | linarith
      | (constructor <;> linarith)
      | (intro h; linarith)
      | (rintro ⟨h4, h5⟩; linarith)

lemma temp_risk_minimal_iff (t : ℚ) :
    temp_risk t = .minimal ↔
      50 < temp_to_fahrenheit t ∧ temp_to_fahrenheit t < 95 := by
  simp only [temp_risk]
  split_ifs with h1 h2 h3 <;> simp_all <;>
    first
      | linarith
      | (constructor <;> linarith)
      | (intro h; linarith)
      | (rintro ⟨h4, h5⟩; linarith)

/-- C7: for every forecast, the rain / wind / temperature factor levels
are exactly the fixed threshold bands of evaluator.py (rain 80/50/20,
wind 35/25/15 mph, temperature 35/95/50 °F), and the overall per-leg risk
is the maximum severity of the three factors. -/
theorem c7_threshold_categorization (f : ForecastResult) :
    (((categorize_weather_risk f).rain = .high ↔ 80 ≤ f.chance_of_rain) ∧
      ((categorize_weather_risk f).rain = .moderate ↔
        50 ≤ f.chance_of_rain ∧ f.chance_of_rain < 80) ∧
      ((categorize_weather_risk f).rain = .low ↔
        20 ≤ f.chance_of_rain ∧ f.chance_of_rain < 50) ∧
      ((categorize_weather_risk f).rain = .minimal ↔ f.chance_of_rain < 20)) ∧
    (((categorize_weather_risk f).wind = .high ↔
        35 ≤ f.wind_kph * (0.621371 : ℚ)) ∧
      ((categorize_weather_risk f).wind = .moderate ↔
        25 ≤ f.wind_kph * (0.621371 : ℚ) ∧ f.wind_kph * (0.621371 : ℚ) < 35) ∧
      ((categorize_weather_risk f).wind = .low ↔
        15 ≤ f.wind_kph * (0.621371 : ℚ) ∧ f.wind_kph * (0.621371 : ℚ) < 25) ∧
      ((categorize_weather_risk f).wind = .minimal ↔
        f.wind_kph * (0.621371 : ℚ) < 15)) ∧
    (((categorize_weather_risk f).temperature = .high ↔
        temp_to_fahrenheit f.temp_c ≤ 35 ∨ 95 ≤ temp_to_fahrenheit f.temp_c) ∧
      ((categorize_weather_risk f).temperature = .moderate ↔
        35 < temp_to_fahrenheit f.temp_c ∧ temp_to_fahrenheit f.temp_c ≤ 50) ∧
      ((categorize_weather_risk f).temperature = .minimal ↔
        50 < temp_to_fahrenheit f.temp_c ∧ temp_to_fahrenheit f.temp_c < 95)) ∧
    severity (categorize_weather_risk f).overall =
      max (severity (categorize_weather_risk f).rain)
        (max (severity (categorize_weather_risk f).wind)
          (severity (categorize_weather_risk f).temperature)) := by
  have hr : (categorize_weather_risk f).rain = rain_risk f.chance_of_rain := rfl
  have hw : (categorize_weather_risk f).wind = wind_risk f.wind_kph := rfl
  have ht : (categorize_weather_risk f).temperature = temp_risk f.temp_c := rfl
  have ho : (categorize_weather_risk f).overall =
      overallOf [rain_risk f.chance_of_rain, wind_risk f.wind_kph,
        temp_risk f.temp_c] := rfl
  rw [hr, hw, ht, ho]
  exact ⟨⟨rain_risk_high_iff _, rain_risk_moderate_iff _, rain_risk_low_iff _,
      rain_risk_minimal_iff _⟩,
    ⟨wind_risk_high_iff _, wind_risk_moderate_iff _, wind_risk_low_iff _,
      wind_risk_minimal_iff _⟩,
    ⟨temp_risk_high_iff _, temp_risk_moderate_iff _, temp_risk_minimal_iff _⟩,
    severity_overallOf _ _ _⟩

/-- C8: rain-risk severity is monotonically non-decreasing in the rain
probability, and each boundary value 20, 50, 80 lands in the higher
category. -/
theorem c8_rain_risk_monotone :
    (∀ p1 p2 : ℚ, p1 ≤ p2 →
      severity (rain_risk p1) ≤ severity (rain_risk p2)) ∧
    rain_risk 20 = .low ∧ rain_risk 50 = .moderate ∧ rain_risk 80 = .high := by
  refine ⟨?_, by norm_num [rain_risk], by norm_num [rain_risk],
    by norm_num [rain_risk]⟩
  intro p1 p2 h
  unfold rain_risk
  split_ifs <;> simp only [severity] <;>
    first
      | (exfalso; linarith)
      | omega

/-- Witness for C8 at a concrete pair of probabilities. -/
theorem c8_rain_risk_monotone_witness :
    severity (rain_risk 10) ≤ severity (rain_risk 90) :=
  c8_rain_risk_monotone.1 10 90 (by norm_num)

/-- C10: the NOAA adapter's Fahrenheit-to-Celsius conversion followed by
`temp_to_fahrenheit` is the identity over exact rational arithmetic. -/
theorem c10_temperature_roundtrip (t : ℚ) :
    temp_to_fahrenheit (noaa_temp_to_celsius t) = t := by
  unfold temp_to_fahrenheit noaa_temp_to_celsius
  ring

/-- C1: the round-trip decision (modelled from spec §4.6, since
`evaluate_ride_full_day2` delegates it to an external text generator) is
`false` whenever either leg's overall risk from the source-embedded
`categorize_weather_risk` is high. -/
theorem c1_high_risk_blocks_ride (morning evening : ForecastResult)
    (h : (categorize_weather_risk morning).overall = RiskLevel.high ∨
      (categorize_weather_risk evening).overall = RiskLevel.high) :
    should_ride morning evening = false := by
  unfold should_ride
  rw [if_pos h]

/-- Witness for C1: a morning leg with 90% rain has high overall risk and
the decision is against riding. -/
theorem c1_high_risk_blocks_ride_witness :
    ((categorize_weather_risk ⟨90, 0, 20⟩).overall = RiskLevel.high ∨
      (categorize_weather_risk ⟨0, 0, 20⟩).overall = RiskLevel.high) ∧
    should_ride ⟨90, 0, 20⟩ ⟨0, 0, 20⟩ = false :=
  ⟨by decide, c1_high_risk_blocks_ride _ _ (by decide)⟩

/-- C6 counterexample: an OpenWeather payload whose `pop` field is 2
(out of the documented [0,1] range) yields `chance_of_rain = 200`,
outside [0,100]; the adapters never clamp. -/
theorem c6_chance_counterexample :
    openweather_chance_of_rain (some 2) = 200 ∧
      ¬ openweather_chance_of_rain (some 2) ≤ 100 := by
  constructor <;> norm_num [openweather_chance_of_rain]

/-- C6 amended: when the payload probability field is absent or within
its provider-documented range (OpenWeather `pop` ∈ [0,1], NOAA
`probabilityOfPrecipitation.value` ∈ [0,100]), the resulting
`chance_of_rain` lies in [0,100]. -/
theorem c6_chance_in_range :
    (∀ pop : Option ℚ, (∀ x ∈ pop, 0 ≤ x ∧ x ≤ 1) →
      0 ≤ openweather_chance_of_rain pop ∧
        openweather_chance_of_rain pop ≤ 100) ∧
    (∀ value : Option ℚ, (∀ x ∈ value, 0 ≤ x ∧ x ≤ 100) →
      0 ≤ noaa_chance_of_rain value ∧ noaa_chance_of_rain value ≤ 100) := by
  constructor
  · rintro (_ | x) h
    · norm_num [openweather_chance_of_rain]
    · obtain ⟨h0, h1⟩ := h x (by simp)
      unfold openweather_chance_of_rain
      simp only [Option.getD_some]
      constructor <;> linarith
  · rintro (_ | x) h
    · norm_num [noaa_chance_of_rain]
    · obtain ⟨h0, h1⟩ := h x (by simp)
      unfold noaa_chance_of_rain
      simp only [Option.getD_some]
      exact ⟨h0, h1⟩

/-- Witness for the amended C6 at `pop = 1/2`. -/
theorem c6_chance_in_range_witness :
    0 ≤ openweather_chance_of_rain (some (1 / 2)) ∧
      openweather_chance_of_rain (some (1 / 2)) ≤ 100 :=
  c6_chance_in_range.1 (some (1 / 2))
    (by intro x hx; simp at hx; subst hx; norm_num)

/-- C3: with retries enabled, `max_retries = 2`, base delay 1, max delay
10: a non-429 4xx on the first attempt gives exactly one attempt, no
sleep, result None; timeouts on every attempt give exactly three
attempts, sleeps of 1 s then 2 s, result None. -/
theorem c3_retry_policy (s : ℕ) (h4 : 400 ≤ s) (h5 : s < 500)
    (h9 : s ≠ 429) (outcomes : ℕ → CallOutcome)
    (hout : outcomes 0 = .resp s) :
    retry_with_backoff ⟨true, 3, true, 2, 1, 10⟩ outcomes =
      ⟨none, 1, []⟩ ∧
    retry_with_backoff ⟨true, 3, true, 2, 1, 10⟩ (fun _ => .timeout) =
      ⟨none, 3, [1, 2]⟩ := by
  constructor
  · have hc : classifyAttempt (.resp s) = .terminal := by
      have he : classifyAttempt (.resp s) =
          (if 400 ≤ s ∧ s < 600 then
            if 400 ≤ s ∧ s < 500 ∧ s ≠ 429 then AttemptEnd.terminal
            else AttemptEnd.retryable
          else AttemptEnd.success s) := rfl
      rw [he, if_pos ⟨h4, by omega⟩, if_pos ⟨h4, h5, h9⟩]
    show retryLoop 10 1 [outcomes 0, outcomes 1, outcomes 2] = ⟨none, 1, []⟩
    rw [hout]
    unfold retryLoop
    rw [hc]
  · have hmin1 : min ((1 : ℚ) * 2) 10 = 2 := by norm_num
    show retryLoop 10 1 [.timeout, .timeout, .timeout] = ⟨none, 3, [1, 2]⟩
    simp [retryLoop, classifyAttempt, hmin1]
    norm_num

/-- Witness for C3 with a 404 on the first attempt. -/
theorem c3_retry_policy_witness :
    retry_with_backoff ⟨true, 3, true, 2, 1, 10⟩ (fun _ => .resp 404) =
      ⟨none, 1, []⟩ ∧
    retry_with_backoff ⟨true, 3, true, 2, 1, 10⟩ (fun _ => .timeout) =
      ⟨none, 3, [1, 2]⟩ :=
  c3_retry_policy 404 (by norm_num) (by norm_num) (by norm_num) _ rfl

/-- C2 counterexample: target window (7, 9), now = 8:30, entries at 6:00
and 11:00, fallback window 3 h. The resolver does return the 11:00 entry
with used_fallback = true, but the offset is +1 (11:00 minus target_end
9:59:59.999999 is 3600.000001 s, and floor division by 3600 gives 1),
not +2 as claimed. Times are microseconds from local midnight. -/
theorem c2_fallback_offset_counterexample :
    find_forecast_with_fallback [(21600000000 : ℤ), 39600000000] (7, 9)
      30600000000 ⟨true, 3, true, 2, 1, 10⟩ id ≠
      some (some 39600000000, true, some 2) := by
  decide

/-- C2 amended: in the same scenario the resolver returns the 11:00
entry with used_fallback = true and offset_hours = +1. -/
theorem c2_fallback_scenario :
    find_forecast_with_fallback [(21600000000 : ℤ), 39600000000] (7, 9)
      30600000000 ⟨true, 3, true, 2, 1, 10⟩ id =
      some (some 39600000000, true, some 1) := by
  decide

/-- C9: for every entry list, every now, every config and every target
hour pair inside 0-23 (including end_hour ≤ start_hour), the resolver
terminates with a return triple and never raises (the `ValueError` case
of the model is unreachable). -/
theorem c9_resolver_totality {α : Type} (forecasts : List α)
    (timeOf : α → ℤ) (now : ℤ) (config : WeatherConfig)
    (start_hour end_hour : ℤ) (h1 : 0 ≤ start_hour) (h2 : start_hour ≤ 23)
    (h3 : 0 ≤ end_hour) (h4 : end_hour ≤ 23) :
    (find_forecast_with_fallback forecasts (start_hour, end_hour) now config
      timeOf).isSome := by
  unfold find_forecast_with_fallback
  dsimp only
  cases hE : exactScan timeOf now start_hour end_hour forecasts with
  | some f => rfl
  | none =>
    by_cases hf : config.enable_fallback = false
    · rw [if_pos hf]
      rfl
    · rw [if_neg hf, if_pos ⟨h1, h2, h3, h4⟩]
      cases hS : fallbackScan timeOf now
          (fallbackBandLow now start_hour end_hour config)
          (fallbackBandHigh now end_hour config)
          (targetStartOf now start_hour end_hour)
          (targetEndOf now end_hour)
          (fallbackCenter now start_hour end_hour) forecasts none with
      | none => rfl
      | some v =>
        obtain ⟨b, m, o⟩ := v
        rfl

/-- Witness for C9 on a concrete empty entry list and window (7, 9). -/
theorem c9_resolver_totality_witness :
    (find_forecast_with_fallback ([] : List ℤ) (7, 9) 0
      ⟨true, 3, true, 2, 1, 10⟩ id).isSome :=
  c9_resolver_totality [] id 0 ⟨true, 3, true, 2, 1, 10⟩ 7 9
    (by norm_num) (by norm_num) (by norm_num) (by norm_num)

lemma firstMinBy_eq_none_iff {α : Type} (d : α → ℤ) (l : List α) :
    firstMinBy d l = none ↔ l = [] := by
  cases l with
  | nil => simp [firstMinBy]
  | cons c rest =>
    simp only [firstMinBy]
    cases hfm : firstMinBy d rest with
    | none => simp
    | some b =>
      dsimp only
      split_ifs <;> simp

lemma firstMinBy_le_head {α : Type} (d : α → ℤ) (x : α) (xs : List α) (s : α)
    (hs : firstMinBy d (x :: xs) = some s) : d s ≤ d x := by
  simp only [firstMinBy] at hs
  cases hfm : firstMinBy d xs with
  | none => rw [hfm] at hs; simp at hs; subst hs; exact le_refl _
  | some b =>
    rw [hfm] at hs
    dsimp only at hs
    split_ifs at hs with hlt
    · cases hs; exact le_of_lt hlt
    · cases hs; exact le_refl _

lemma firstMinBy_min {α : Type} (d : α → ℤ) (l : List α) (b : α)
    (hb : firstMinBy d l = some b) : ∀ c ∈ l, d b ≤ d c := by
  induction l generalizing b with
  | nil => simp [firstMinBy] at hb
  | cons x xs ih =>
    intro c hc
    simp only [firstMinBy] at hb
    cases hfm : firstMinBy d xs with
    | none =>
      rw [hfm] at hb
      simp at hb
      subst hb
      have hxs : xs = [] := (firstMinBy_eq_none_iff d xs).1 hfm
      subst hxs
      simp at hc
      subst hc
      exact le_refl _
    | some s =>
      rw [hfm] at hb
      dsimp only at hb
      rcases List.mem_cons.1 hc with rfl | hc2
      · split_ifs at hb with hlt
        · cases hb; exact le_of_lt hlt
        · cases hb; exact le_refl _
      · have hsc := ih s hfm c hc2
        split_ifs at hb with hlt
        · cases hb; exact hsc
        · cases hb; exact le_trans (not_lt.1 hlt) hsc

lemma firstMinBy_first {α : Type} (d : α → ℤ) (l : List α) (b : α)
    (hb : firstMinBy d l = some b) :
    ∃ l1 l2, l = l1 ++ b :: l2 ∧ ∀ c ∈ l1, d b < d c := by
  induction l generalizing b with
  | nil => simp [firstMinBy] at hb
  | cons x xs ih =>
    simp only [firstMinBy] at hb
    cases hfm : firstMinBy d xs with
    | none =>
      rw [hfm] at hb
      simp at hb
      subst hb
      exact ⟨[], xs, rfl, by simp⟩
    | some s =>
      rw [hfm] at hb
      dsimp only at hb
      split_ifs at hb with hlt
      · cases hb
        obtain ⟨l1, l2, hsplit, hstrict⟩ := ih b hfm
        refine ⟨x :: l1, l2, by rw [hsplit, List.cons_append], ?_⟩
        intro c hc
        rcases List.mem_cons.1 hc with rfl | hc2
        · exact hlt
        · exact hstrict c hc2
      · cases hb
        exact ⟨[], xs, rfl, by simp⟩

lemma firstMinBy_cons_cons_of_lt {α : Type} (d : α → ℤ) (b e : α)
    (xs : List α) (h : d e < d b) :
    firstMinBy d (b :: e :: xs) = firstMinBy d (e :: xs) := by
  cases hfm : firstMinBy d (e :: xs) with
  | none =>
    exact absurd ((firstMinBy_eq_none_iff d _).1 hfm) (by simp)
  | some s =>
    have hs := firstMinBy_le_head d e xs s hfm
    show (match firstMinBy d (e :: xs) with
      | none => some b
      | some s => if d s < d b then some s else some b) = some s
    rw [hfm]
    exact if_pos (lt_of_le_of_lt hs h)

lemma firstMinBy_cons_cons_of_le {α : Type} (d : α → ℤ) (b e : α)
    (xs : List α) (h : d b ≤ d e) :
    firstMinBy d (b :: e :: xs) = firstMinBy d (b :: xs) := by
  show (match firstMinBy d (e :: xs) with
    | none => some b
    | some s => if d s < d b then some s else some b) =
    (match firstMinBy d xs with
    | none => some b
    | some s => if d s < d b then some s else some b)
  cases hfm : firstMinBy d xs with
  | none =>
    have hxs : xs = [] := (firstMinBy_eq_none_iff d xs).1 hfm
    subst hxs
    show (if d e < d b then some e else some b) = some b
    rw [if_neg (not_lt.2 h)]
  | some s =>
    have he : firstMinBy d (e :: xs) =
        (match firstMinBy d xs with
        | none => some e
        | some s => if d s < d e then some s else some e) := rfl
    rw [he, hfm]
    dsimp only
    by_cases hse : d s < d e
    · rw [if_pos hse]
    · rw [if_neg hse]
      dsimp only
      rw [if_neg (not_lt.2 h), if_neg (not_lt.2 (le_trans h (not_lt.1 hse)))]

lemma exactScan_eq_none {α : Type} (timeOf : α → ℤ) (now sH eH : ℤ)
    (l : List α) (h : ∀ e ∈ l, ¬ matchesTarget timeOf now sH eH e) :
    exactScan timeOf now sH eH l = none := by
  induction l with
  | nil => rfl
  | cons e rest ih =>
    have he := h e (List.mem_cons_self e rest)
    have hrest := ih fun c hc => h c (List.mem_cons_of_mem _ hc)
    by_cases h1 : timeOf e < now
    · simp only [exactScan]
      rw [if_pos h1]
      exact hrest
    · have h2 : ¬ (sH ≤ hourOf (timeOf e) ∧ hourOf (timeOf e) ≤ eH) :=
        fun hc => he ⟨h1, hc⟩
      simp only [exactScan]
      rw [if_neg h1, if_neg h2]
      exact hrest

lemma exactScan_first {α : Type} (timeOf : α → ℤ) (now sH eH : ℤ)
    (l1 l2 : List α) (b : α)
    (hfirst : ∀ c ∈ l1, ¬ matchesTarget timeOf now sH eH c)
    (hb : matchesTarget timeOf now sH eH b) :
    exactScan timeOf now sH eH (l1 ++ b :: l2) = some b := by
  induction l1 with
  | nil =>
    simp only [List.nil_append, exactScan]
    rw [if_neg hb.1, if_pos hb.2]
  | cons c l1x ih =>
    have hc := hfirst c (List.mem_cons_self c l1x)
    have hrest := ih fun x hx => hfirst x (List.mem_cons_of_mem _ hx)
    simp only [List.cons_append, exactScan]
    by_cases h1 : timeOf c < now
    · rw [if_pos h1]
      exact hrest
    · rw [if_neg h1, if_neg fun hcond => hc ⟨h1, hcond⟩]
      exact hrest

/-- C4: whenever the entry list contains an entry at or after `now`
whose hour lies inside the inclusive target range, the resolver returns
the first such entry, with used_fallback = false and no offset — for
every config (in particular with fallback enabled). -/
theorem c4_exact_pass_returns_first {α : Type} (timeOf : α → ℤ)
    (forecasts l1 l2 : List α) (b : α) (now : ℤ) (config : WeatherConfig)
    (start_hour end_hour : ℤ) (hsplit : forecasts = l1 ++ b :: l2)
    (hb : matchesTarget timeOf now start_hour end_hour b)
    (hfirst : ∀ c ∈ l1, ¬ matchesTarget timeOf now start_hour end_hour c) :
    find_forecast_with_fallback forecasts (start_hour, end_hour) now config
      timeOf = some (some b, false, none) := by
  subst hsplit
  unfold find_forecast_with_fallback
  dsimp only
  rw [exactScan_first timeOf now start_hour end_hour l1 l2 b hfirst hb]

/-- Witness for C4: a single entry at 8:00 with window (7, 9). -/
theorem c4_exact_pass_returns_first_witness :
    find_forecast_with_fallback [(28800000000 : ℤ)] (7, 9) 0
      ⟨true, 3, true, 2, 1, 10⟩ id = some (some 28800000000, false, none) :=
  c4_exact_pass_returns_first id [28800000000] [] [] 28800000000 0
    ⟨true, 3, true, 2, 1, 10⟩ 7 9 rfl (by decide) (by simp)

lemma inBand_false_of_lt {α : Type} (timeOf : α → ℤ) (now bl bh : ℤ) (e : α)
    (h1 : timeOf e < now) : inBand timeOf now bl bh e = false := by
  simp [inBand, h1]

lemma inBand_false_of_out {α : Type} (timeOf : α → ℤ) (now bl bh : ℤ) (e : α)
    (h2 : ¬ (bl ≤ timeOf e ∧ timeOf e ≤ bh)) :
    inBand timeOf now bl bh e = false := by
  rcases not_and_or.1 h2 with h | h <;> simp [inBand, h]

lemma inBand_true {α : Type} (timeOf : α → ℤ) (now bl bh : ℤ) (e : α)
    (h1 : ¬ timeOf e < now) (h2 : bl ≤ timeOf e ∧ timeOf e ≤ bh) :
    inBand timeOf now bl bh e = true := by
  simp [inBand, h1, h2.1, h2.2]

lemma fallbackScan_from_some {α : Type} (timeOf : α → ℤ)
    (now bl bh ts te ctr : ℤ) (l : List α) (b : α) :
    fallbackScan timeOf now bl bh ts te ctr l
      (some (b, |timeOf b - ctr|, offsetOf ts te (timeOf b))) =
      (firstMinBy (fun e => |timeOf e - ctr|)
        (b :: l.filter (inBand timeOf now bl bh))).map
        (fun x => (x, |timeOf x - ctr|, offsetOf ts te (timeOf x))) := by
  induction l generalizing b with
  | nil => simp [fallbackScan, firstMinBy]
  | cons e rest ih =>
    by_cases h1 : timeOf e < now
    · have hband := inBand_false_of_lt timeOf now bl bh e h1
      have hfe : List.filter (inBand timeOf now bl bh) (e :: rest) =
          List.filter (inBand timeOf now bl bh) rest := by
        simp [List.filter_cons, hband]
      simp only [fallbackScan, hfe]
      rw [if_pos h1]
      exact ih b
    · by_cases h2 : bl ≤ timeOf e ∧ timeOf e ≤ bh
      · have hband := inBand_true timeOf now bl bh e h1 h2
        have hfe : List.filter (inBand timeOf now bl bh) (e :: rest) =
            e :: List.filter (inBand timeOf now bl bh) rest := by
          simp [List.filter_cons, hband]
        simp only [fallbackScan, hfe]
        rw [if_neg h1, if_pos h2]
        by_cases hlt : |timeOf e - ctr| < |timeOf b - ctr|
        · rw [if_pos hlt, ih e,
            firstMinBy_cons_cons_of_lt (fun x => |timeOf x - ctr|) b e _ hlt]
        · rw [if_neg hlt, ih b,
            firstMinBy_cons_cons_of_le (fun x => |timeOf x - ctr|) b e _
              (not_lt.1 hlt)]
      · have hband := inBand_false_of_out timeOf now bl bh e h2
        have hfe : List.filter (inBand timeOf now bl bh) (e :: rest) =
            List.filter (inBand timeOf now bl bh) rest := by
          simp [List.filter_cons, hband]
        simp only [fallbackScan, hfe]
        rw [if_neg h1, if_neg h2]
        exact ih b

lemma fallbackScan_from_none {α : Type} (timeOf : α → ℤ)
    (now bl bh ts te ctr : ℤ) (l : List α) :
    fallbackScan timeOf now bl bh ts te ctr l none =
      (firstMinBy (fun e => |timeOf e - ctr|)
        (l.filter (inBand timeOf now bl bh))).map
        (fun x => (x, |timeOf x - ctr|, offsetOf ts te (timeOf x))) := by
  induction l with
  | nil => simp [fallbackScan, firstMinBy]
  | cons e rest ih =>
    by_cases h1 : timeOf e < now
    · have hband := inBand_false_of_lt timeOf now bl bh e h1
      have hfe : List.filter (inBand timeOf now bl bh) (e :: rest) =
          List.filter (inBand timeOf now bl bh) rest := by
        simp [List.filter_cons, hband]
      simp only [fallbackScan, hfe]
      rw [if_pos h1]
      exact ih
    · by_cases h2 : bl ≤ timeOf e ∧ timeOf e ≤ bh
      · have hband := inBand_true timeOf now bl bh e h1 h2
        have hfe : List.filter (inBand timeOf now bl bh) (e :: rest) =
            e :: List.filter (inBand timeOf now bl bh) rest := by
          simp [List.filter_cons, hband]
        simp only [fallbackScan, hfe]
        rw [if_neg h1, if_pos h2]
        exact fallbackScan_from_some timeOf now bl bh ts te ctr rest e
      · have hband := inBand_false_of_out timeOf now bl bh e h2
        have hfe : List.filter (inBand timeOf now bl bh) (e :: rest) =
            List.filter (inBand timeOf now bl bh) rest := by
          simp [List.filter_cons, hband]
        simp only [fallbackScan, hfe]
        rw [if_neg h1, if_neg h2]
        exact ih

/-- C5: when the exact pass finds nothing and fallback is enabled, the
resolver returns exactly the first candidate (future entry inside the
admissible band) minimizing the absolute distance to the target center,
with its signed offset; every candidate appearing before the winner in
input order is strictly farther from the center, so equidistant
candidates resolve to the earlier one. When no candidate exists it
returns (None, false, None). -/
theorem c5_fallback_closest_stable {α : Type} (timeOf : α → ℤ)
    (forecasts : List α) (now : ℤ) (config : WeatherConfig)
    (start_hour end_hour : ℤ)
    (hE : ∀ e ∈ forecasts, ¬ matchesTarget timeOf now start_hour end_hour e)
    (hF : config.enable_fallback = true)
    (h1 : 0 ≤ start_hour) (h2 : start_hour ≤ 23)
    (h3 : 0 ≤ end_hour) (h4 : end_hour ≤ 23) :
    (forecasts.filter (inBand timeOf now
        (fallbackBandLow now start_hour end_hour config)
        (fallbackBandHigh now end_hour config)) = [] ∧
      find_forecast_with_fallback forecasts (start_hour, end_hour) now config
        timeOf = some (none, false, none)) ∨
    (∃ b l1 l2,
      find_forecast_with_fallback forecasts (start_hour, end_hour) now config
        timeOf =
        some (some b, true,
          some (offsetOf (targetStartOf now start_hour end_hour)
            (targetEndOf now end_hour) (timeOf b))) ∧
      forecasts.filter (inBand timeOf now
        (fallbackBandLow now start_hour end_hour config)
        (fallbackBandHigh now end_hour config)) = l1 ++ b :: l2 ∧
      (∀ c ∈ forecasts.filter (inBand timeOf now
          (fallbackBandLow now start_hour end_hour config)
          (fallbackBandHigh now end_hour config)),
        |timeOf b - fallbackCenter now start_hour end_hour| ≤
          |timeOf c - fallbackCenter now start_hour end_hour|) ∧
      (∀ c ∈ l1,
        |timeOf b - fallbackCenter now start_hour end_hour| <
          |timeOf c - fallbackCenter now start_hour end_hour|)) := by
  have hexact := exactScan_eq_none timeOf now start_hour end_hour forecasts hE
  have hncond : ¬ (config.enable_fallback = false) := by rw [hF]; simp
  cases hfm : firstMinBy
      (fun e => |timeOf e - fallbackCenter now start_hour end_hour|)
      (forecasts.filter (inBand timeOf now
        (fallbackBandLow now start_hour end_hour config)
        (fallbackBandHigh now end_hour config))) with
  | none =>
    left
    refine ⟨(firstMinBy_eq_none_iff _ _).1 hfm, ?_⟩
    unfold find_forecast_with_fallback
    dsimp only
    rw [hexact]
    dsimp only
    rw [if_neg hncond, if_pos ⟨h1, h2, h3, h4⟩, fallbackScan_from_none, hfm]
    rfl
  | some b =>
    right
    obtain ⟨l1, l2, hsplit, hstrict⟩ := firstMinBy_first _ _ b hfm
    refine ⟨b, l1, l2, ?_, hsplit, firstMinBy_min _ _ b hfm, hstrict⟩
    unfold find_forecast_with_fallback
    dsimp only
    rw [hexact]
    dsimp only
    rw [if_neg hncond, if_pos ⟨h1, h2, h3, h4⟩, fallbackScan_from_none, hfm]
    rfl

/-- Witness for C5: window (7, 9), now = 4:00, entries at 5:00 and 12:00,
both 3.5 h from the target center 8:30, so exactly equidistant; the
resolver must settle for the earlier one. -/
theorem c5_fallback_closest_stable_witness :
    (([(18000000000 : ℤ), 43200000000].filter (inBand id 14400000000
        (fallbackBandLow 14400000000 7 9 ⟨true, 3, true, 2, 1, 10⟩)
        (fallbackBandHigh 14400000000 9 ⟨true, 3, true, 2, 1, 10⟩)) = [] ∧
      find_forecast_with_fallback [(18000000000 : ℤ), 43200000000] (7, 9)
        14400000000 ⟨true, 3, true, 2, 1, 10⟩ id = some (none, false, none)) ∨
    (∃ b l1 l2,
      find_forecast_with_fallback [(18000000000 : ℤ), 43200000000] (7, 9)
        14400000000 ⟨true, 3, true, 2, 1, 10⟩ id =
        some (some b, true,
          some (offsetOf (targetStartOf 14400000000 7 9)
            (targetEndOf 14400000000 9) (id b))) ∧
      [(18000000000 : ℤ), 43200000000].filter (inBand id 14400000000
        (fallbackBandLow 14400000000 7 9 ⟨true, 3, true, 2, 1, 10⟩)
        (fallbackBandHigh 14400000000 9 ⟨true, 3, true, 2, 1, 10⟩)) =
        l1 ++ b :: l2 ∧
      (∀ c ∈ [(18000000000 : ℤ), 43200000000].filter (inBand id 14400000000
          (fallbackBandLow 14400000000 7 9 ⟨true, 3, true, 2, 1, 10⟩)
          (fallbackBandHigh 14400000000 9 ⟨true, 3, true, 2, 1, 10⟩)),
        |id b - fallbackCenter 14400000000 7 9| ≤
          |id c - fallbackCenter 14400000000 7 9|) ∧
      (∀ c ∈ l1,
        |id b - fallbackCenter 14400000000 7 9| <
          |id c - fallbackCenter 14400000000 7 9|))) :=
  c5_fallback_closest_stable id [18000000000, 43200000000] 14400000000
    ⟨true, 3, true, 2, 1, 10⟩ 7 9 (by decide) rfl
    (by norm_num) (by norm_num) (by norm_num) (by norm_num)
